import Mathlib

/-!
Shallow embedding of the `auto_aider.py` orchestrator: configuration
validation, prompt synthesis rendering, the dual-mode execution runner,
outcome evaluation, the final review gate, and the `AiderAgent.run`
control loop. External effects (the collaborator's text responses, the
subprocess behaviour of the executed program, the user's interactive
answers) are supplied as explicit environment data so that each run of
the model is a pure function of that environment.
-/

/-! ## Python string helpers -/

/-- Characters removed by Python's `str.strip()` with no argument. -/
def isPySpace (c : Char) : Bool :=
  c = ' ' || c = '\t' || c = '\n' || c = '\r' || c = '\x0b' || c = '\x0c'

/-- Model of Python `str.strip()`: drop whitespace from both ends. -/
def pyStrip (s : String) : String :=
  String.mk (((s.toList.dropWhile isPySpace).reverse.dropWhile isPySpace).reverse)

/-- Model of Python `str.lower()` on the ASCII letters that occur in the
interactive answers handled by the tool: lowercase every character. -/
def pyLower (s : String) : String :=
  String.mk (s.toList.map Char.toLower)

/-! ## JSON values

The collaborator replies with free-form text that the tool feeds to
`json.loads`.  A successful parse yields an untyped Python value, which we
model with the `Json` inductive; a raised `JSONDecodeError` is modelled as
`none` at each use site. -/

/-- Untyped JSON value as produced by `json.loads` (numbers restricted to
integers, which is all the orchestrator ever inspects). -/
inductive Json where
  | null : Json
  | bool : Bool → Json
  | num : Int → Json
  | str : String → Json
  | arr : List Json → Json
  | obj : List (String × Json) → Json

/-- Python truthiness of a JSON value, as used by `if self.final_review():`.
`None`, `False`, `0`, `""`, `[]` and `{}` are falsy; everything else is
truthy. -/
def pythonTruthy : Json → Bool
  | Json.null => false
  | Json.bool b => b
  | Json.num n => n != 0
  | Json.str s => s != ""
  | Json.arr xs => !xs.isEmpty
  | Json.obj kvs => !kvs.isEmpty

/-- Model of Python `dict.get` on an object built by `json.loads`: with
duplicate keys the later binding wins, so we look the key up from the end. -/
def pyDictGet (kvs : List (String × Json)) (k : String) : Option Json :=
  (kvs.reverse.find? (fun kv => kv.fst == k)).map (fun kv => kv.snd)

/-! ## Configuration (`AiderAgentConfig`, auto_aider.py lines 46-107) -/

/-- The raw configuration document after YAML loading and after the prompt
file's text has been substituted for the `prompt` path (auto_aider.py line
105).  Field values are already carried at their YAML types; the pydantic
checks performed by `AiderAgentConfig(**config_dict)` are modelled in
`validateAiderAgentConfig`.  Defaults mirror the pydantic field defaults. -/
structure RawConfig where
  prompt : String
  coder_model : String
  evaluator_model : String
  max_iterations : Int
  execution_command : String
  context_editable : List String
  context_read_only : List String
  evaluator : String
  program_type : String := "script"
  startup_timeout : Int := 5
  health_check_command : Option String := none
deriving DecidableEq

/-- Validated configuration, mirroring the `AiderAgentConfig` pydantic
model: `evaluator` must be the literal `"default"` and `program_type` one of
`"script"` or `"long_running"`.  Note that `max_iterations` is declared as a
bare `int` in the source, with no positivity constraint. -/
structure AiderAgentConfig where
  prompt : String
  coder_model : String
  evaluator_model : String
  max_iterations : Int
  execution_command : String
  context_editable : List String
  context_read_only : List String
  evaluator : String
  program_type : String
  startup_timeout : Int
  health_check_command : Option String
deriving DecidableEq

/-- The pydantic validation step `AiderAgentConfig(**config_dict)`
(auto_aider.py line 107): the `Literal` annotations on `evaluator` and
`program_type` are enforced; every other field, `max_iterations` included,
is taken over unchanged.  A violated `Literal` raises a `ValidationError`,
modelled as `Except.error`. -/
def validateAiderAgentConfig (r : RawConfig) : Except String AiderAgentConfig :=
  if r.evaluator = "default" then
    if r.program_type = "script" ∨ r.program_type = "long_running" then
      Except.ok
        { prompt := r.prompt
          coder_model := r.coder_model
          evaluator_model := r.evaluator_model
          max_iterations := r.max_iterations
          execution_command := r.execution_command
          context_editable := r.context_editable
          context_read_only := r.context_read_only
          evaluator := r.evaluator
          program_type := r.program_type
          startup_timeout := r.startup_timeout
          health_check_command := r.health_check_command }
    else
      Except.error "ValidationError: program_type must be script or long_running"
  else
    Except.error "ValidationError: evaluator must be default"

/-! ## Execution runner (auto_aider.py lines 227-289) -/

/-- Behaviour of one `subprocess.run` invocation of the execution command in
script mode: either the process runs to completion with captured stdout,
stderr and return code, or launching it raises an exception. -/
inductive ScriptRun where
  | completes : String → String → Int → ScriptRun
  | raises : String → ScriptRun
  | nop : ScriptRun

/-- Behaviour of the `subprocess.Popen` / `communicate(timeout=...)` pair in
`_check_program_startup`: the launch can raise; the process can exit before
the startup timeout with captured output; `communicate` can raise
`TimeoutExpired` (the process is still running at the timeout); or
`communicate` can raise some other exception. -/
inductive ProcBehavior where
  | raiseOnLaunch : String → ProcBehavior
  | exitsWithin : String → String → ProcBehavior
  | timesOut : ProcBehavior
  | raiseOnCommunicate : String → ProcBehavior

/-- Behaviour of the health-check subprocess in `_perform_health_check`:
completes with a return code, exceeds its 10-second bound, or raises. -/
inductive HealthBehavior where
  | completes : Int → HealthBehavior
  | timesOut : HealthBehavior
  | raises : String → HealthBehavior

/-- `AiderAgent._check_program_startup` (lines 227-245).  On
`TimeoutExpired` the process is killed and the fixed success sentence is
returned; an early exit returns the captured `stdout + stderr`; any other
exception is caught by the outer handler and converted to an
`"Error executing program: ..."` string. -/
def check_program_startup (cfg : AiderAgentConfig) (pb : ProcBehavior) : String :=
  match pb with
  | ProcBehavior.raiseOnLaunch msg => "Error executing program: " ++ msg
  | ProcBehavior.exitsWithin stdout stderr => stdout ++ stderr
  | ProcBehavior.timesOut =>
      "Program started successfully and remained running for "
        ++ toString cfg.startup_timeout ++ " seconds."
  | ProcBehavior.raiseOnCommunicate msg => "Error executing program: " ++ msg

/-- Whether the launched OS process is still alive after
`_check_program_startup` returns: a failed launch creates no process, an
early exit means the process already terminated, and on `TimeoutExpired`
the code calls `process.kill()`.  Only a non-timeout exception during
`communicate` leaves the process unmanaged. -/
def processAliveAfterStartupCheck : ProcBehavior → Bool
  | ProcBehavior.raiseOnLaunch _ => false
  | ProcBehavior.exitsWithin _ _ => false
  | ProcBehavior.timesOut => false
  | ProcBehavior.raiseOnCommunicate _ => true

/-- `AiderAgent._perform_health_check` (lines 247-263).  Pass/fail is
decided strictly by the return code; a timeout or exception is converted to
a fixed string.  With no configured command a fixed sentence is returned. -/
def perform_health_check (cfg : AiderAgentConfig) (hb : HealthBehavior) : String :=
  match cfg.health_check_command with
  | none => "No health check configured"
  | some _ =>
    match hb with
    | HealthBehavior.completes returncode =>
        "Health check " ++ (if returncode = 0 then "passed" else "failed")
    | HealthBehavior.timesOut => "Health check timed out"
    | HealthBehavior.raises msg => "Health check error: " ++ msg

/-- `AiderAgent.execute_code` (lines 265-289).  In long-running mode the
startup check's string (optionally augmented with the health-check line) is
returned; its internal try/except means no exception escapes.  In script
mode the source calls `subprocess.run` with no surrounding try/except, so a
launch exception propagates to the caller, modelled as `Except.error`. -/
def execute_code (cfg : AiderAgentConfig) (sb : ScriptRun) (pb : ProcBehavior)
    (hb : HealthBehavior) : Except String String :=
  if cfg.program_type = "long_running" then
    match cfg.health_check_command with
    | some _ =>
        Except.ok (check_program_startup cfg pb ++ "\nHealth Check: "
          ++ perform_health_check cfg hb)
    | none => Except.ok (check_program_startup cfg pb)
  else
    match sb with
    | ScriptRun.completes stdout stderr _returncode => Except.ok (stdout ++ stderr)
    | ScriptRun.raises msg => Except.error msg
    | ScriptRun.nop => Except.error "no subprocess behaviour supplied"

/-! ## Outcome evaluation (auto_aider.py lines 291-310) -/

/-- The `EvaluationResult` pydantic model: a success flag and optional
feedback text. -/
structure EvaluationResult where
  success : Bool
  feedback : Option String
deriving DecidableEq

/-- `AiderAgent.evaluate_output` after the collaborator call: the
`json.loads` of the response followed by `EvaluationResult(**json)`
validation is modelled by the `parsed` argument, which is `none` whenever
the parse or the shape validation raises.  In that case the except branch
returns the defensive default `EvaluationResult(success=False,
feedback="Parsing error")`. -/
def evaluate_output (parsed : Option EvaluationResult) : EvaluationResult :=
  match parsed with
  | some evaluation => evaluation
  | none => { success := false, feedback := some "Parsing error" }

/-! ## Prompt synthesis (auto_aider.py lines 109-217) -/

/-- One entry of `low_level_goals`; each field is read with
`task.get(..., '')`, so missing keys default to the empty string. -/
structure LowLevelGoal where
  task : String := ""
  prompt : String := ""
  file : String := ""
  function : String := ""
  details : String := ""

/-- The `implementation_guidelines` object; each list is read with
`impl.get(..., [])`. -/
structure ImplementationGuidelines where
  technical_details : List String := []
  dependencies : List String := []
  coding_standards : List String := []
  other_guidance : List String := []

/-- The `project_context` object. -/
structure ProjectContext where
  beginning_files : List String := []
  ending_files : List String := []

/-- The JSON document requested from the collaborator by the final
synthesis call, with the defaulting behaviour of the `.get` accesses baked
into the field defaults. -/
structure PromptJson where
  high_level_goals : List String := []
  mid_level_goals : List String := []
  implementation_guidelines : ImplementationGuidelines := {}
  project_context : ProjectContext := {}
  low_level_goals : List LowLevelGoal := []

/-- Renders `- item` bullet lines, mirroring the `for ...:
structured_prompt += f"- {goal}\n"` loops. -/
def renderBulletLines (items : List String) : String :=
  items.foldl (fun acc item => acc ++ "- " ++ item ++ "\n") ""

/-- Renders one numbered low-level goal block (lines 206-213). -/
def renderLowLevelGoal (idx : Nat) (t : LowLevelGoal) : String :=
  toString idx ++ ". **" ++ t.task ++ "**  \n"
    ++ "```code-example\n"
    ++ "What instructions would you need to complete this task? " ++ t.prompt ++ "\n"
    ++ "What file do you want to work on? " ++ t.file ++ "\n"
    ++ "What function do you want to work on? " ++ t.function ++ "\n"
    ++ "What are details you want to add to ensure consistency? " ++ t.details ++ "\n"
    ++ "```\n\n"

/-- Renders the low-level goals, 1-indexed as in
`enumerate(prompt_json.get('low_level_goals', []), 1)`. -/
def renderLowLevelGoals (tasks : List LowLevelGoal) : String :=
  tasks.enum.foldl (fun acc p => acc ++ renderLowLevelGoal (p.fst + 1) p.snd) ""

/-- The markdown document assembled from a successfully parsed synthesis
response (lines 168-213), with the exact section order and literal text of
the source. -/
def renderStructuredPrompt (j : PromptJson) : String :=
  "# Architect Prompt Template\n"
    ++ "Process this file working through each step to ensure each objective is met.\n\n"
    ++ "## High Level Goals\n\n"
    ++ renderBulletLines j.high_level_goals
    ++ "\n## Mid Level Goals\n\n"
    ++ renderBulletLines j.mid_level_goals
    ++ "\n## Implementation Guidelines\n"
    ++ renderBulletLines j.implementation_guidelines.technical_details
    ++ renderBulletLines j.implementation_guidelines.dependencies
    ++ renderBulletLines j.implementation_guidelines.coding_standards
    ++ renderBulletLines j.implementation_guidelines.other_guidance
    ++ "\n## Project Context\n\n"
    ++ "### Beginning files\n"
    ++ renderBulletLines j.project_context.beginning_files
    ++ "\n### Ending files\n"
    ++ renderBulletLines j.project_context.ending_files
    ++ "\n## Low Level Goals\n"
    ++ "> Ordered from first to last\n\n"
    ++ renderLowLevelGoals j.low_level_goals

/-- The parse-and-render step at the end of `build_structured_prompt`
(lines 165-217).  `response` is the collaborator's final reply; `parsed` is
`some j` when `json.loads` succeeds and every field access in the rendering
block goes through, and `none` when the parse or any access raises, in
which case the except branch logs the error and falls back to the verbatim
response text. -/
def build_structured_prompt (response : String) (parsed : Option PromptJson) : String :=
  match parsed with
  | some j => renderStructuredPrompt j
  | none => response

/-! ## Review gate (auto_aider.py lines 312-333) -/

/-- `AiderAgent.final_review` after the collaborator call: `parsed` is the
outcome of `json.loads(response)`.  A parse failure, or the
`AttributeError` raised by calling `.get` on a non-dict value, is caught
and yields `False`; otherwise `review_json.get("review_passed", False)` is
returned verbatim — whatever JSON value sits under the key, not only a
boolean. -/
def final_review (parsed : Option Json) : Json :=
  match parsed with
  | some (Json.obj kvs) => (pyDictGet kvs "review_passed").getD (Json.bool false)
  | some _ => Json.bool false
  | none => Json.bool false

/-- `AiderAgent.human_final_verification` (lines 327-333) applied to the
raw line read from stdin: the input is stripped, lowercased, and compared
to `"y"`. -/
def human_final_verification (response : String) : Bool :=
  pyLower (pyStrip response) == "y"

/-! ## The orchestrator run (auto_aider.py lines 335-418) -/

/-- Environment of one `AiderAgent.run` invocation: the user's interactive
answers, the parse outcomes of the collaborator's JSON replies, and the
per-iteration subprocess behaviour consumed by `execute_code`. -/
structure RunEnv where
  ideaInput : String
  synthesisResponse : String
  synthesisParsed : Option PromptJson
  promptDataParsed : Option Json
  confirmInput : String
  procScript : Nat → ScriptRun
  procLong : Nat → ProcBehavior
  procHealth : Nat → HealthBehavior
  evalParsed : Nat → Option EvaluationResult
  reviewParsed : Option Json
  humanInput : String

/-- Terminal status of a modelled run. -/
inductive RunOutcome where
  | noIdea : RunOutcome
  | canceled : RunOutcome
  | exhausted : RunOutcome
  | reviewFailed : RunOutcome
  | humanRejected : RunOutcome
  | succeeded : RunOutcome
deriving DecidableEq

/-- Observable trace of one run: how many collaborator calls were issued,
whether the `aider_auto_prompt.json` artifact was written, how many
complete generate/execute/evaluate cycles ran, whether the automated final
review was requested, whether the human confirmation prompt was shown, and
the terminal outcome. -/
structure RunTrace where
  collaboratorCalls : Nat
  artifactWritten : Bool
  cycles : Nat
  reviewCalled : Bool
  humanPrompted : Bool
  outcome : RunOutcome
deriving DecidableEq

/-- The `for i in range(self.config.max_iterations)` loop (lines 376-401),
fuel-recursive on the remaining iteration count with `i` the current
0-based index.  Each iteration performs a generation call, executes the
code (an uncaught script-mode exception aborts the whole run), evaluates
the output, and breaks out on success; the returned pair is the number of
completed cycles together with the final `evaluation` value. -/
def runLoop (cfg : AiderAgentConfig) (env : RunEnv) :
    Nat → Nat → EvaluationResult → Except String (Nat × EvaluationResult)
  | 0, _, evaluation => Except.ok (0, evaluation)
  | Nat.succ fuel, i, _ =>
    match execute_code cfg (env.procScript i) (env.procLong i) (env.procHealth i) with
    | Except.error e => Except.error e
    | Except.ok _output =>
      if (evaluate_output (env.evalParsed i)).success then
        Except.ok (1, evaluate_output (env.evalParsed i))
      else
        match runLoop cfg env fuel (i + 1) (evaluate_output (env.evalParsed i)) with
        | Except.ok (cycles, evalFinal) => Except.ok (cycles + 1, evalFinal)
        | Except.error e => Except.error e

/-- The review gate entered from the success branch (lines 403-416): the
automated `final_review` collaborator call is gated by Python truthiness,
and only a truthy verdict reaches the `human_final_verification` prompt.
The collaborator-call count is 5 pre-loop calls, 2 per cycle, and 1 for the
review. -/
def reviewGateTrace (env : RunEnv) (cycles : Nat) : RunTrace :=
  if pythonTruthy (final_review env.reviewParsed) then
    if human_final_verification env.humanInput then
      { collaboratorCalls := 5 + 2 * cycles + 1, artifactWritten := true,
        cycles := cycles, reviewCalled := true, humanPrompted := true,
        outcome := RunOutcome.succeeded }
    else
      { collaboratorCalls := 5 + 2 * cycles + 1, artifactWritten := true,
        cycles := cycles, reviewCalled := true, humanPrompted := true,
        outcome := RunOutcome.humanRejected }
  else
    { collaboratorCalls := 5 + 2 * cycles + 1, artifactWritten := true,
      cycles := cycles, reviewCalled := true, humanPrompted := false,
      outcome := RunOutcome.reviewFailed }

/-- The part of `run` from the iterative loop onward (lines 374-418): the
loop starts from `EvaluationResult(success=False, feedback=None)` with
`range(max_iterations)` iterations (empty for non-positive values, as in
Python), then either enters the review gate on success or reports
exhaustion as a normal terminal outcome. -/
def runTail (cfg : AiderAgentConfig) (env : RunEnv) : Except String RunTrace :=
  match runLoop cfg env cfg.max_iterations.toNat 0
      { success := false, feedback := none } with
  | Except.error e => Except.error e
  | Except.ok (cycles, evaluation) =>
    if evaluation.success then
      Except.ok (reviewGateTrace env cycles)
    else
      Except.ok
        { collaboratorCalls := 5 + 2 * cycles, artifactWritten := true,
          cycles := cycles, reviewCalled := false, humanPrompted := false,
          outcome := RunOutcome.exhausted }

/-- `AiderAgent.run` (lines 335-418).  The stripped idea is requested
first; an empty idea returns at once with nothing done.  Otherwise
`build_structured_prompt` makes 4 collaborator calls (3 refinement rounds
plus the final ask), a 5th call requests the three-field summary whose
`json.loads` at line 352 is unguarded (a parse failure raises out of
`run`), the `aider_auto_prompt.json` artifact is written, and only then is
the confirmation prompt shown; a non-affirmative answer cancels.  The
affirmative path continues into `runTail`. -/
def AiderAgent.run (cfg : AiderAgentConfig) (env : RunEnv) : Except String RunTrace :=
  if pyStrip env.ideaInput = "" then
    Except.ok
      { collaboratorCalls := 0, artifactWritten := false, cycles := 0,
        reviewCalled := false, humanPrompted := false, outcome := RunOutcome.noIdea }
  else
    match env.promptDataParsed with
    | none => Except.error "json.decoder.JSONDecodeError"
    | some _prompt_data =>
      if pyLower (pyStrip env.confirmInput) ≠ "y" then
        Except.ok
          { collaboratorCalls := 5, artifactWritten := true, cycles := 0,
            reviewCalled := false, humanPrompted := false,
            outcome := RunOutcome.canceled }
      else
        runTail cfg env

/-! ## Concrete configurations and environments used as evaluation points -/

/-- A small script-mode configuration with two loop iterations. -/
def cfgA : AiderAgentConfig :=
  { prompt := "Template", coder_model := "model-a", evaluator_model := "model-b",
    max_iterations := 2, execution_command := "python main.py",
    context_editable := ["main.py"], context_read_only := ["README.md"],
    evaluator := "default", program_type := "script", startup_timeout := 5,
    health_check_command := none }

/-- The same configuration in long-running mode. -/
def cfgLR : AiderAgentConfig :=
  { cfgA with program_type := "long_running" }

/-- A parsed three-field summary document for the artifact call. -/
def pd0 : Json :=
  Json.obj [("high_level", Json.str "h"), ("mid_level", Json.str "m"),
            ("low_level", Json.str "l")]

/-- Baseline environment: a nonempty idea, an affirmative confirmation, a
well-behaved script subprocess, an evaluator that always reports failure,
a passing automated review and an affirmative human answer. -/
def envBase : RunEnv :=
  { ideaInput := "add a feature",
    synthesisResponse := "not valid json",
    synthesisParsed := none,
    promptDataParsed := some pd0,
    confirmInput := "y",
    procScript := fun _ => ScriptRun.completes "ok" "" 0,
    procLong := fun _ => ProcBehavior.timesOut,
    procHealth := fun _ => HealthBehavior.completes 0,
    evalParsed := fun _ => some { success := false, feedback := some "keep going" },
    reviewParsed := some (Json.obj [("review_passed", Json.bool true)]),
    humanInput := "y" }

/-- Environment whose evaluator succeeds on the first iteration. -/
def envFirstSuccess : RunEnv :=
  { envBase with evalParsed := fun _ => some { success := true, feedback := none } }

/-- Environment in which the user declines the confirmation prompt. -/
def envDecline : RunEnv :=
  { envBase with confirmInput := "n" }

/-- Environment in which the idea is blank after stripping. -/
def envEmptyIdea : RunEnv :=
  { envBase with ideaInput := "   " }

/-- Environment in which the user answers the confirmation with `"Y"`. -/
def envUpperY : RunEnv :=
  { envBase with confirmInput := "Y" }

/-- Environment whose final review parses to a truthy non-boolean
`review_passed` value and whose human answer is negative. -/
def envReviewStr : RunEnv :=
  { envBase with
      evalParsed := fun _ => some { success := true, feedback := none },
      reviewParsed := some (Json.obj [("review_passed", Json.str "yes")]),
      humanInput := "n" }

/-- Environment whose final review response fails to parse. -/
def envReviewNone : RunEnv :=
  { envBase with
      evalParsed := fun _ => some { success := true, feedback := none },
      reviewParsed := none }

/-- Raw configuration document with `max_iterations` set to zero. -/
def rawZeroIter : RawConfig :=
  { prompt := "Template", coder_model := "model-a", evaluator_model := "model-b",
    max_iterations := 0, execution_command := "python main.py",
    context_editable := [], context_read_only := [],
    evaluator := "default", program_type := "script", startup_timeout := 5,
    health_check_command := none }

/-- The validated configuration produced from `rawZeroIter`. -/
def cfgZeroIter : AiderAgentConfig :=
  { prompt := "Template", coder_model := "model-a", evaluator_model := "model-b",
    max_iterations := 0, execution_command := "python main.py",
    context_editable := [], context_read_only := [],
    evaluator := "default", program_type := "script", startup_timeout := 5,
    health_check_command := none }

/-! ## Helper lemmas about the loop and the review gate -/

theorem reviewGateTrace_cycles (env : RunEnv) (cycles : Nat) :
    (reviewGateTrace env cycles).cycles = cycles := by
  unfold reviewGateTrace
  split
  · split <;> rfl
  · rfl

theorem reviewGateTrace_reviewCalled (env : RunEnv) (cycles : Nat) :
    (reviewGateTrace env cycles).reviewCalled = true := by
  unfold reviewGateTrace
  split
  · split <;> rfl
  · rfl

theorem reviewGateTrace_humanPrompted (env : RunEnv) (cycles : Nat) :
    (reviewGateTrace env cycles).humanPrompted
      = pythonTruthy (final_review env.reviewParsed) := by
  unfold reviewGateTrace
  split
  · rename_i h
    split <;> simp [h]
  · rename_i h
    simp at h
    simp [h]

theorem reviewGateTrace_outcome_of_false (env : RunEnv) (cycles : Nat)
    (h : pythonTruthy (final_review env.reviewParsed) = false) :
    (reviewGateTrace env cycles).outcome = RunOutcome.reviewFailed := by
  unfold reviewGateTrace
  rw [h]
  rfl

/-- If every evaluation up to the fuel bound fails and every execution
returns normally, the loop consumes all its fuel and ends on a failing
evaluation. -/
theorem runLoop_all_fail (cfg : AiderAgentConfig) (env : RunEnv) :
    ∀ (fuel i : Nat) (ev : EvaluationResult),
    (∀ j, ∃ out, execute_code cfg (env.procScript j) (env.procLong j)
        (env.procHealth j) = Except.ok out) →
    (∀ j, j < fuel → (evaluate_output (env.evalParsed (i + j))).success = false) →
    ev.success = false →
    ∃ evFinal, runLoop cfg env fuel i ev = Except.ok (fuel, evFinal)
      ∧ evFinal.success = false := by
  intro fuel
  induction fuel with
  | zero =>
    intro i ev _hexec _hfail hev
    exact ⟨ev, rfl, hev⟩
  | succ n ih =>
    intro i ev hexec hfail _hev
    obtain ⟨out, hout⟩ := hexec i
    have h0 : (evaluate_output (env.evalParsed i)).success = false := by
      have h := hfail 0 (Nat.succ_pos n)
      simpa using h
    have hshift : ∀ j, j < n →
        (evaluate_output (env.evalParsed (i + 1 + j))).success = false := by
      intro j hj
      have h := hfail (j + 1) (by omega)
      have e : i + (j + 1) = i + 1 + j := by omega
      rwa [e] at h
    obtain ⟨evFinal, hrec, hf⟩ :=
      ih (i + 1) (evaluate_output (env.evalParsed i)) hexec hshift h0
    refine ⟨evFinal, ?_, hf⟩
    unfold runLoop
    rw [hout]
    simp only [h0, Bool.false_eq_true, if_false]
    rw [hrec]

/-- If the first successful evaluation happens at relative offset `m`
within the fuel bound and executions return normally, the loop stops after
exactly `m + 1` cycles with that successful evaluation. -/
theorem runLoop_first_success (cfg : AiderAgentConfig) (env : RunEnv) :
    ∀ (m fuel i : Nat) (ev : EvaluationResult),
    (∀ j, ∃ out, execute_code cfg (env.procScript j) (env.procLong j)
        (env.procHealth j) = Except.ok out) →
    m < fuel →
    (∀ j, j < m → (evaluate_output (env.evalParsed (i + j))).success = false) →
    (evaluate_output (env.evalParsed (i + m))).success = true →
    runLoop cfg env fuel i ev
      = Except.ok (m + 1, evaluate_output (env.evalParsed (i + m))) := by
  intro m
  induction m with
  | zero =>
    intro fuel i ev hexec hm _hbefore hsucc
    cases fuel with
    | zero => omega
    | succ n =>
      obtain ⟨out, hout⟩ := hexec i
      have h : (evaluate_output (env.evalParsed i)).success = true := by
        simpa using hsucc
      unfold runLoop
      rw [hout]
      simp [h]
  | succ k ih =>
    intro fuel i ev hexec hm hbefore hsucc
    cases fuel with
    | zero => omega
    | succ n =>
      obtain ⟨out, hout⟩ := hexec i
      have h0 : (evaluate_output (env.evalParsed i)).success = false := by
        have h := hbefore 0 (by omega)
        simpa using h
      have hshift : ∀ j, j < k →
          (evaluate_output (env.evalParsed (i + 1 + j))).success = false := by
        intro j hj
        have h := hbefore (j + 1) (by omega)
        have e : i + (j + 1) = i + 1 + j := by omega
        rwa [e] at h
      have hsucc' : (evaluate_output (env.evalParsed (i + 1 + k))).success = true := by
        have e : i + (k + 1) = i + 1 + k := by omega
        rwa [e] at hsucc
      have hrec := ih n (i + 1) (evaluate_output (env.evalParsed i)) hexec
        (by omega) hshift hsucc'
      unfold runLoop
      rw [hout]
      simp only [h0, Bool.false_eq_true, if_false]
      rw [hrec]
      have e : i + 1 + k = i + (k + 1) := by omega
      rw [e]

/-- With a nonempty idea, a parsed artifact document and an affirmative
confirmation, `run` proceeds into the iterative phase. -/
theorem run_confirmed (cfg : AiderAgentConfig) (env : RunEnv) (pd : Json)
    (hidea : ¬ pyStrip env.ideaInput = "")
    (hpd : env.promptDataParsed = some pd)
    (hconfirm : pyLower (pyStrip env.confirmInput) = "y") :
    AiderAgent.run cfg env = runTail cfg env := by
  unfold AiderAgent.run
  rw [if_neg hidea, hpd]
  simp [hconfirm]

/-- Exhaustion: all `max_iterations` evaluations fail, so the run performs
exactly that many cycles and terminates normally with the exhaustion
report. -/
theorem run_exhausted (cfg : AiderAgentConfig) (env : RunEnv) (pd : Json)
    (hidea : ¬ pyStrip env.ideaInput = "")
    (hpd : env.promptDataParsed = some pd)
    (hconfirm : pyLower (pyStrip env.confirmInput) = "y")
    (hexec : ∀ j, ∃ out, execute_code cfg (env.procScript j) (env.procLong j)
        (env.procHealth j) = Except.ok out)
    (hfail : ∀ j, j < cfg.max_iterations.toNat →
        (evaluate_output (env.evalParsed j)).success = false) :
    AiderAgent.run cfg env = Except.ok
      { collaboratorCalls := 5 + 2 * cfg.max_iterations.toNat,
        artifactWritten := true, cycles := cfg.max_iterations.toNat,
        reviewCalled := false, humanPrompted := false,
        outcome := RunOutcome.exhausted } := by
  rw [run_confirmed cfg env pd hidea hpd hconfirm]
  unfold runTail
  obtain ⟨evFinal, hL, hf⟩ := runLoop_all_fail cfg env cfg.max_iterations.toNat 0
    { success := false, feedback := none } hexec (by simpa using hfail) rfl
  rw [hL]
  simp [hf]

/-- First success at 0-based index `m`: the run performs exactly `m + 1`
cycles and enters the review gate. -/
theorem run_first_success (cfg : AiderAgentConfig) (env : RunEnv) (pd : Json) (m : Nat)
    (hidea : ¬ pyStrip env.ideaInput = "")
    (hpd : env.promptDataParsed = some pd)
    (hconfirm : pyLower (pyStrip env.confirmInput) = "y")
    (hexec : ∀ j, ∃ out, execute_code cfg (env.procScript j) (env.procLong j)
        (env.procHealth j) = Except.ok out)
    (hm : m < cfg.max_iterations.toNat)
    (hbefore : ∀ j, j < m → (evaluate_output (env.evalParsed j)).success = false)
    (hsucc : (evaluate_output (env.evalParsed m)).success = true) :
    AiderAgent.run cfg env = Except.ok (reviewGateTrace env (m + 1)) := by
  rw [run_confirmed cfg env pd hidea hpd hconfirm]
  unfold runTail
  have hL := runLoop_first_success cfg env m cfg.max_iterations.toNat 0
    { success := false, feedback := none } hexec hm (by simpa using hbefore)
    (by simpa using hsucc)
  have e : 0 + m = m := by omega
  rw [e] at hL
  rw [hL]
  simp [hsucc]

/-! ## Claim theorems -/

/-- Claim C1: with the run reaching the loop (nonempty idea, parsed
artifact document, affirmative confirmation, normally returning
executions), (a) if every one of the first `max_iterations` evaluations
reports failure the run performs exactly `max_iterations` cycles and ends
normally in exhaustion, and (b) if the first successful evaluation is at
0-based index `m < max_iterations` the run performs exactly `m + 1` cycles
and proceeds directly to the review gate. -/
theorem claim_c1_iteration_bound (cfg : AiderAgentConfig) (env : RunEnv) (pd : Json)
    (hidea : ¬ pyStrip env.ideaInput = "")
    (hpd : env.promptDataParsed = some pd)
    (hconfirm : pyLower (pyStrip env.confirmInput) = "y")
    (hexec : ∀ j, ∃ out, execute_code cfg (env.procScript j) (env.procLong j)
        (env.procHealth j) = Except.ok out) :
    ((∀ j, j < cfg.max_iterations.toNat →
        (evaluate_output (env.evalParsed j)).success = false) →
      AiderAgent.run cfg env = Except.ok
        { collaboratorCalls := 5 + 2 * cfg.max_iterations.toNat,
          artifactWritten := true, cycles := cfg.max_iterations.toNat,
          reviewCalled := false, humanPrompted := false,
          outcome := RunOutcome.exhausted }) ∧
    (∀ m, m < cfg.max_iterations.toNat →
      (∀ j, j < m → (evaluate_output (env.evalParsed j)).success = false) →
      (evaluate_output (env.evalParsed m)).success = true →
      AiderAgent.run cfg env = Except.ok (reviewGateTrace env (m + 1))
        ∧ (reviewGateTrace env (m + 1)).cycles = m + 1
        ∧ (reviewGateTrace env (m + 1)).reviewCalled = true) := by
  constructor
  · intro hfail
    exact run_exhausted cfg env pd hidea hpd hconfirm hexec hfail
  · intro m hm hbefore hsucc
    exact ⟨run_first_success cfg env pd m hidea hpd hconfirm hexec hm hbefore hsucc,
      reviewGateTrace_cycles env (m + 1), reviewGateTrace_reviewCalled env (m + 1)⟩

/-- Witness for C1 at concrete inputs: with `max_iterations = 2` and an
always-failing evaluator the run does 2 cycles and exhausts; with a
first-iteration success it does 1 cycle and enters the review gate. -/
theorem claim_c1_witness :
    (AiderAgent.run cfgA envBase = Except.ok
      { collaboratorCalls := 5 + 2 * cfgA.max_iterations.toNat,
        artifactWritten := true, cycles := cfgA.max_iterations.toNat,
        reviewCalled := false, humanPrompted := false,
        outcome := RunOutcome.exhausted }) ∧
    (AiderAgent.run cfgA envFirstSuccess
      = Except.ok (reviewGateTrace envFirstSuccess 1)) := by
  constructor
  · exact (claim_c1_iteration_bound cfgA envBase pd0 (by decide) rfl (by decide)
      (fun j => ⟨"ok" ++ "", rfl⟩)).1 (by decide)
  · exact ((claim_c1_iteration_bound cfgA envFirstSuccess pd0 (by decide) rfl (by decide)
      (fun j => ⟨"ok" ++ "", rfl⟩)).2 0 (by decide) (by decide) (by decide)).1

/-- Counterexample to claim C2 as stated: in script mode `execute_code`
wraps `subprocess.run` in no try/except, so a launch exception propagates
out of the execution step instead of being converted to an
`"Error executing program: ..."` outcome string. -/
theorem claim_c2_counterexample :
    execute_code cfgA (ScriptRun.raises "[Errno 2] No such file or directory")
      ProcBehavior.timesOut HealthBehavior.timesOut
      = Except.error "[Errno 2] No such file or directory" := rfl

/-- Claim C2 (amended): only the long-running path converts launch or
communication exceptions into `"Error executing program: <message>"`
evidence and never lets an exception escape `execute_code`; in script mode
a launch exception propagates to the orchestrator. -/
theorem claim_c2_exception_handling (cfg : AiderAgentConfig) (sb : ScriptRun)
    (pb : ProcBehavior) (hb : HealthBehavior) (msg : String) :
    (check_program_startup cfg (ProcBehavior.raiseOnLaunch msg)
        = "Error executing program: " ++ msg) ∧
    (check_program_startup cfg (ProcBehavior.raiseOnCommunicate msg)
        = "Error executing program: " ++ msg) ∧
    (cfg.program_type = "long_running" → cfg.health_check_command = none →
        execute_code cfg sb pb hb = Except.ok (check_program_startup cfg pb)) ∧
    (∀ hc, cfg.program_type = "long_running" → cfg.health_check_command = some hc →
        execute_code cfg sb pb hb = Except.ok (check_program_startup cfg pb
          ++ "\nHealth Check: " ++ perform_health_check cfg hb)) ∧
    (cfg.program_type = "script" →
        execute_code cfg (ScriptRun.raises msg) pb hb = Except.error msg) := by
  refine ⟨rfl, rfl, ?_, ?_, ?_⟩
  · intro h1 h2
    unfold execute_code
    rw [if_pos h1, h2]
  · intro hc h1 h2
    unfold execute_code
    rw [if_pos h1, h2]
  · intro h
    unfold execute_code
    rw [if_neg (by simp [h])]

/-- Witness for the amended C2: a long-running config turns a launch
exception into an ordinary outcome string, while the script config lets
the same exception escape. -/
theorem claim_c2_witness :
    (execute_code cfgLR (ScriptRun.raises "boom") (ProcBehavior.raiseOnLaunch "boom")
        (HealthBehavior.completes 0)
      = Except.ok (check_program_startup cfgLR (ProcBehavior.raiseOnLaunch "boom"))) ∧
    (execute_code cfgA (ScriptRun.raises "boom") (ProcBehavior.raiseOnLaunch "boom")
        (HealthBehavior.completes 0)
      = Except.error "boom") := by
  constructor
  · exact (claim_c2_exception_handling cfgLR (ScriptRun.raises "boom")
      (ProcBehavior.raiseOnLaunch "boom") (HealthBehavior.completes 0) "boom").2.2.1
      rfl rfl
  · exact (claim_c2_exception_handling cfgA (ScriptRun.raises "boom")
      (ProcBehavior.raiseOnLaunch "boom") (HealthBehavior.completes 0) "boom").2.2.2.2
      rfl

/-- Counterexample to claim C3 as stated: when the user declines the
confirmation prompt the run indeed performs zero cycles, but the
`aider_auto_prompt.json` artifact has already been written before the
prompt was shown, so the run is not free of persisted side effects. -/
theorem claim_c3_counterexample :
    AiderAgent.run cfgA envDecline = Except.ok
      { collaboratorCalls := 5, artifactWritten := true, cycles := 0,
        reviewCalled := false, humanPrompted := false,
        outcome := RunOutcome.canceled } ∧
    (RunTrace.artifactWritten
      { collaboratorCalls := 5, artifactWritten := true, cycles := 0,
        reviewCalled := false, humanPrompted := false,
        outcome := RunOutcome.canceled } = true) := ⟨rfl, rfl⟩

/-- Claim C3 (amended): declining the pre-loop confirmation aborts with
zero generate/execute/evaluate cycles, no review and no human prompt — but
the artifact file has already been persisted (and the five synthesis-phase
collaborator calls have already happened) by the time the prompt is shown. -/
theorem claim_c3_decline_cancels (cfg : AiderAgentConfig) (env : RunEnv) (pd : Json)
    (hidea : ¬ pyStrip env.ideaInput = "")
    (hpd : env.promptDataParsed = some pd)
    (hdecline : pyLower (pyStrip env.confirmInput) ≠ "y") :
    AiderAgent.run cfg env = Except.ok
      { collaboratorCalls := 5, artifactWritten := true, cycles := 0,
        reviewCalled := false, humanPrompted := false,
        outcome := RunOutcome.canceled } := by
  unfold AiderAgent.run
  rw [if_neg hidea, hpd]
  simp [hdecline]

/-- Witness for the amended C3 at a concrete declining environment. -/
theorem claim_c3_witness :
    AiderAgent.run cfgA envDecline = Except.ok
      { collaboratorCalls := 5, artifactWritten := true, cycles := 0,
        reviewCalled := false, humanPrompted := false,
        outcome := RunOutcome.canceled } :=
  claim_c3_decline_cancels cfgA envDecline pd0 (by decide) rfl (by decide)

/-- Claim C4: whenever the final synthesis response fails JSON parsing or
validation, `build_structured_prompt` returns the verbatim response text
as the structured prompt, and (being a total function into `String`) the
failure is not raised to the caller. -/
theorem claim_c4_synthesis_fallback (response : String) :
    build_structured_prompt response none = response := rfl

/-- Claim C5: an evaluator response that fails strict parsing or shape
validation yields `EvaluationResult(success=False, feedback="Parsing
error")`, and a successful verdict can only come from a validated parse
that itself carried `success=True`. -/
theorem claim_c5_evaluation_default (parsed : Option EvaluationResult) :
    evaluate_output none = { success := false, feedback := some "Parsing error" } ∧
    ((evaluate_output parsed).success = true
      → parsed = some (evaluate_output parsed)) := by
  refine ⟨rfl, ?_⟩
  intro h
  cases parsed with
  | none => simp [evaluate_output] at h
  | some r => rfl

/-- Witness for C5: a validated successful verdict is returned unchanged. -/
theorem claim_c5_witness :
    some { success := true, feedback := (none : Option String) }
      = some (evaluate_output (some { success := true, feedback := none })) :=
  (claim_c5_evaluation_default (some { success := true, feedback := none })).2 rfl

/-- Claim C6: in long-running mode, a process still alive at the startup
timeout is killed (no process remains) and the outcome is the fixed
success sentence naming the configured timeout, while a process that exits
before the timeout yields exactly its captured stdout+stderr. -/
theorem claim_c6_long_running_startup (cfg : AiderAgentConfig)
    (stdout stderr : String) :
    (check_program_startup cfg ProcBehavior.timesOut
        = "Program started successfully and remained running for "
          ++ toString cfg.startup_timeout ++ " seconds.") ∧
    (processAliveAfterStartupCheck ProcBehavior.timesOut = false) ∧
    (check_program_startup cfg (ProcBehavior.exitsWithin stdout stderr)
        = stdout ++ stderr) ∧
    (processAliveAfterStartupCheck (ProcBehavior.exitsWithin stdout stderr)
        = false) :=
  ⟨rfl, rfl, rfl, rfl⟩

/-- Counterexample to claim C7 as stated: a review response that parses
with `review_passed` bound to the truthy non-boolean `"yes"` is not the
JSON literal `true`, yet the run still reaches the human confirmation
prompt, because the gate tests Python truthiness of whatever
`review_json.get("review_passed", False)` returned. -/
theorem claim_c7_counterexample :
    AiderAgent.run cfgA envReviewStr = Except.ok
      { collaboratorCalls := 8, artifactWritten := true, cycles := 1,
        reviewCalled := true, humanPrompted := true,
        outcome := RunOutcome.humanRejected } ∧
    final_review envReviewStr.reviewParsed = Json.str "yes" ∧
    final_review envReviewStr.reviewParsed ≠ Json.bool true := by
  exact ⟨rfl, rfl, fun h =>
    Json.noConfusion (show Json.str "yes" = Json.bool true from h)⟩

/-- Claim C7 (amended): a review response that fails to parse, is not an
object, or lacks `review_passed` yields the verdict `False`; once the loop
has succeeded, the human prompt is issued exactly when the returned
`review_passed` value is Python-truthy, and a falsy verdict ends the run
as a failed review with no human prompt. -/
theorem claim_c7_review_gate (cfg : AiderAgentConfig) (env : RunEnv) (pd : Json)
    (m : Nat)
    (hidea : ¬ pyStrip env.ideaInput = "")
    (hpd : env.promptDataParsed = some pd)
    (hconfirm : pyLower (pyStrip env.confirmInput) = "y")
    (hexec : ∀ j, ∃ out, execute_code cfg (env.procScript j) (env.procLong j)
        (env.procHealth j) = Except.ok out)
    (hm : m < cfg.max_iterations.toNat)
    (hbefore : ∀ j, j < m → (evaluate_output (env.evalParsed j)).success = false)
    (hsucc : (evaluate_output (env.evalParsed m)).success = true) :
    (final_review none = Json.bool false) ∧
    (∀ kvs, pyDictGet kvs "review_passed" = none →
        final_review (some (Json.obj kvs)) = Json.bool false) ∧
    (AiderAgent.run cfg env = Except.ok (reviewGateTrace env (m + 1))) ∧
    ((reviewGateTrace env (m + 1)).humanPrompted
        = pythonTruthy (final_review env.reviewParsed)) ∧
    (pythonTruthy (final_review env.reviewParsed) = false →
        (reviewGateTrace env (m + 1)).outcome = RunOutcome.reviewFailed) := by
  refine ⟨rfl, ?_, ?_, ?_, ?_⟩
  · intro kvs h
    change (pyDictGet kvs "review_passed").getD (Json.bool false) = Json.bool false
    rw [h]
    rfl
  · exact run_first_success cfg env pd m hidea hpd hconfirm hexec hm hbefore hsucc
  · exact reviewGateTrace_humanPrompted env (m + 1)
  · exact reviewGateTrace_outcome_of_false env (m + 1)

/-- Witness for the amended C7: with an unparseable review response the
run ends as a failed review without showing the human prompt. -/
theorem claim_c7_witness :
    (AiderAgent.run cfgA envReviewNone
        = Except.ok (reviewGateTrace envReviewNone 1)) ∧
    ((reviewGateTrace envReviewNone 1).humanPrompted
        = pythonTruthy (final_review envReviewNone.reviewParsed)) ∧
    ((reviewGateTrace envReviewNone 1).outcome = RunOutcome.reviewFailed) := by
  have t := claim_c7_review_gate cfgA envReviewNone pd0 0 (by decide) rfl (by decide)
    (fun j => ⟨"ok" ++ "", rfl⟩) (by decide) (by decide) (by decide)
  exact ⟨t.2.2.1, t.2.2.2.1, t.2.2.2.2 rfl⟩

/-- Counterexample to claim C8 as stated: the answer `"Y"` is not the
lowercase string `"y"`, yet it is treated as affirmative at both prompts —
the human verification accepts it and the confirmation prompt lets the run
proceed into the loop. -/
theorem claim_c8_counterexample :
    human_final_verification "Y" = true ∧
    ¬ ("Y" = "y") ∧
    AiderAgent.run cfgA envUpperY = Except.ok
      { collaboratorCalls := 5 + 2 * cfgA.max_iterations.toNat,
        artifactWritten := true, cycles := cfgA.max_iterations.toNat,
        reviewCalled := false, humanPrompted := false,
        outcome := RunOutcome.exhausted } := ⟨rfl, by decide, rfl⟩

/-- Claim C8 (amended): at both yes/no prompts a response counts as
affirmative exactly when it equals `"y"` after stripping surrounding
whitespace and lowercasing; any other response declines, and a declining
confirmation cancels while an affirmative one proceeds into the loop. -/
theorem claim_c8_affirmative_normalized (s : String) (cfg : AiderAgentConfig)
    (env : RunEnv) (pd : Json)
    (hidea : ¬ pyStrip env.ideaInput = "")
    (hpd : env.promptDataParsed = some pd) :
    (human_final_verification s = true ↔ pyLower (pyStrip s) = "y") ∧
    (pyLower (pyStrip env.confirmInput) ≠ "y" →
        AiderAgent.run cfg env = Except.ok
          { collaboratorCalls := 5, artifactWritten := true, cycles := 0,
            reviewCalled := false, humanPrompted := false,
            outcome := RunOutcome.canceled }) ∧
    (pyLower (pyStrip env.confirmInput) = "y" →
        AiderAgent.run cfg env = runTail cfg env) := by
  refine ⟨?_, ?_, ?_⟩
  · simp [human_final_verification]
  · intro h
    unfold AiderAgent.run
    rw [if_neg hidea, hpd]
    simp [h]
  · intro h
    exact run_confirmed cfg env pd hidea hpd h

/-- Witness for the amended C8: `"Y"` normalizes to `"y"`, so it passes
the human verification predicate and the confirmation gate. -/
theorem claim_c8_witness :
    (human_final_verification "Y" = true ↔ pyLower (pyStrip "Y") = "y") ∧
    (AiderAgent.run cfgA envUpperY = runTail cfgA envUpperY) := by
  have t := claim_c8_affirmative_normalized "Y" cfgA envUpperY pd0 (by decide) rfl
  exact ⟨t.1, t.2.2 (by decide)⟩

/-- Counterexample to claim C9 as stated: a configuration document with
`max_iterations = 0` — an integer that is not greater than zero — loads
successfully instead of failing with a configuration error. -/
theorem claim_c9_counterexample :
    validateAiderAgentConfig rawZeroIter = Except.ok cfgZeroIter ∧
    cfgZeroIter.max_iterations = 0 := ⟨rfl, rfl⟩

/-- Claim C9 (amended): configuration loading enforces the `evaluator` and
`program_type` literals but places no lower bound on `max_iterations`:
whenever a document validates, the same document with `max_iterations`
replaced by any integer (zero or negative included) also validates, with
that value carried into the loaded configuration unchanged. -/
theorem claim_c9_no_positivity_check (r : RawConfig) (c : AiderAgentConfig) (n : Int)
    (h : validateAiderAgentConfig r = Except.ok c) :
    c.max_iterations = r.max_iterations ∧
    validateAiderAgentConfig { r with max_iterations := n }
      = Except.ok { c with max_iterations := n } := by
  unfold validateAiderAgentConfig at h ⊢
  by_cases h1 : r.evaluator = "default"
  · by_cases h2 : r.program_type = "script" ∨ r.program_type = "long_running"
    · rw [if_pos h1, if_pos h2] at h
      injection h with h'
      subst h'
      refine ⟨rfl, ?_⟩
      rw [if_pos h1, if_pos h2]
    · rw [if_pos h1, if_neg h2] at h
      simp at h
  · rw [if_neg h1] at h
    simp at h

/-- Witness for the amended C9: the zero-iteration document validates, and
so does its variant with `max_iterations = -3`. -/
theorem claim_c9_witness :
    cfgZeroIter.max_iterations = rawZeroIter.max_iterations ∧
    validateAiderAgentConfig { rawZeroIter with max_iterations := -3 }
      = Except.ok { cfgZeroIter with max_iterations := -3 } :=
  claim_c9_no_positivity_check rawZeroIter cfgZeroIter (-3) rfl

/-- Claim C10: an idea that is empty after stripping whitespace makes the
run return immediately with zero collaborator calls, no artifact written
and zero generate/execute/evaluate cycles. -/
theorem claim_c10_empty_idea (cfg : AiderAgentConfig) (env : RunEnv)
    (h : pyStrip env.ideaInput = "") :
    AiderAgent.run cfg env = Except.ok
      { collaboratorCalls := 0, artifactWritten := false, cycles := 0,
        reviewCalled := false, humanPrompted := false,
        outcome := RunOutcome.noIdea } := by
  unfold AiderAgent.run
  rw [if_pos h]

/-- Witness for C10 with a whitespace-only idea. -/
theorem claim_c10_witness :
    AiderAgent.run cfgA envEmptyIdea = Except.ok
      { collaboratorCalls := 0, artifactWritten := false, cycles := 0,
        reviewCalled := false, humanPrompted := false,
        outcome := RunOutcome.noIdea } :=
  claim_c10_empty_idea cfgA envEmptyIdea (by decide)
